import Mathlib

/-
Shallow embedding of the doc-to-jira integration client
(src/doc_to_jira.py and src/main_jira.py).

Conventions of the embedding:
- Python exceptions become `Except` values; the four error classes of
  doc_to_jira.py become the constructors of `JiraError`, and the exact
  message each raise-site formats is recovered by `JiraError.message`.
- The external Jira service (the `JIRA(...)` constructor, `create_issue`,
  `current_user`, `project`) is an opaque collaborator: each model takes it
  as a function argument mapping the submitted data (and, for retried calls,
  the 0-based attempt index) to an outcome.
- `time.sleep(delay)` calls are recorded as a list of rational delays, in
  the order they happen; attempts are counted explicitly.
- Environment variables are `Option String` (`none` = unset), matching
  `os.getenv`; Python string truthiness is `truthy`.
-/

deriving instance DecidableEq for Except

/-- Error taxonomy of doc_to_jira.py: JiraConfigurationError,
JiraConnectionError, JiraValidationError and JiraIssueCreationError, carrying
the data each raise-site formats into its message (the list of missing
variable names, the total attempt count and the last underlying cause, or the
list of violated validation rules). -/
inductive JiraError where
  | configurationError (missing : List String)
  | connectionError (attempts : Nat) (cause : String)
  | validationError (errors : List String)
  | issueCreationError (attempts : Nat) (cause : String)
  deriving DecidableEq, Repr

/-- The message string each error class is raised with, formatted exactly as
at the corresponding raise-site of doc_to_jira.py. -/
def JiraError.message : JiraError → String
  | .configurationError missing =>
      "Missing required environment variables: " ++ String.intercalate ", " missing ++
        ". Please ensure all Jira credentials are configured."
  | .connectionError attempts cause =>
      "Failed to connect to Jira after " ++ toString attempts ++ " attempts: " ++ cause
  | .validationError errors =>
      "Input validation failed: " ++ String.intercalate "; " errors
  | .issueCreationError attempts cause =>
      "Failed to create Jira issue after " ++ toString attempts ++ " attempts: " ++ cause

/-- Configuration state of a DocToJira client: the retry policy passed to
`__init__` plus the four environment-supplied credentials read by
`os.getenv` (`none` models an unset variable, `some ""` an empty one). -/
structure DocToJira where
  max_retries : Nat
  retry_delay : ℚ
  jira_base_url : Option String
  jira_email : Option String
  jira_api_token : Option String
  jira_project_key : Option String
  deriving DecidableEq, Repr

/-- Python truthiness of an optional string: `None` and the empty string are
falsy, every other string is truthy. -/
def truthy : Option String → Bool
  | none => false
  | some s => !s.isEmpty

/-- Python str.strip(): the string with leading and trailing whitespace
removed, computed on the character list so that it evaluates by kernel
reduction. -/
def strip (s : String) : String :=
  String.mk (((s.data.dropWhile Char.isWhitespace).reverse.dropWhile
    Char.isWhitespace).reverse)

/-- DocToJira._validate_configuration: collects, in declaration order, the
names of all credentials that are missing or empty and raises a single
JiraConfigurationError naming all of them; succeeds when all four are set. -/
def DocToJira.validate_configuration (st : DocToJira) : Except JiraError Unit :=
  let missing_vars : List String :=
    (if truthy st.jira_base_url then [] else ["JIRA_BASE_URL"]) ++
    (if truthy st.jira_email then [] else ["JIRA_EMAIL"]) ++
    (if truthy st.jira_api_token then [] else ["JIRA_API_TOKEN"]) ++
    (if truthy st.jira_project_key then [] else ["JIRA_PROJECT_KEY"])
  if missing_vars.isEmpty then Except.ok ()
  else Except.error (JiraError.configurationError missing_vars)

/-- The retry loop `for attempt in range(self.max_retries + 1)` shared
verbatim by `_connect_to_jira` and `create_jira_issue`.  `op attempt` is the
fallible external call at the given 0-based attempt index (an error carries
the stringified exception); `fuel` is the number of attempts still allowed,
so the initial call uses `fuel = max_retries + 1`, and `0 < fuel` after
consuming the current attempt corresponds to `attempt < self.max_retries`.
Returns the number of attempts performed, the list of sleep delays
(`retry_delay * 2 ^ attempt`, in order), and the final outcome carrying the
last underlying error on exhaustion. -/
def retryLoop {α : Type} (retry_delay : ℚ) (op : Nat → Except String α) :
    Nat → Nat → Nat × List ℚ × Except String α
  | _, 0 => (0, [], Except.error "")
  | attempt, fuel + 1 =>
    match op attempt with
    | Except.ok v => (1, [], Except.ok v)
    | Except.error e =>
      if 0 < fuel then
        let rest := retryLoop retry_delay op (attempt + 1) fuel
        (rest.1 + 1, retry_delay * 2 ^ attempt :: rest.2.1, rest.2.2)
      else
        (1, [], Except.error e)

/-- Observable trace of one `_connect_to_jira` call: attempts made, sleeps in
order, and the final outcome. -/
structure ConnectTrace (α : Type) where
  attempts : Nat
  sleeps : List ℚ
  result : Except JiraError α
  deriving DecidableEq, Repr

/-- DocToJira._connect_to_jira: runs the connection attempt `op` (the
`JIRA(options, basic_auth)` constructor call, an opaque external operation
producing a live handle of type α) through the retry loop with the client's
policy; on exhaustion wraps the last underlying failure in a
JiraConnectionError recording the total attempt count `max_retries + 1`. -/
def DocToJira.connect_to_jira {α : Type} (st : DocToJira)
    (op : Nat → Except String α) : ConnectTrace α :=
  let r := retryLoop st.retry_delay op 0 (st.max_retries + 1)
  { attempts := r.1
    sleeps := r.2.1
    result :=
      match r.2.2 with
      | Except.ok jira => Except.ok jira
      | Except.error e =>
          Except.error (JiraError.connectionError (st.max_retries + 1) e) }

/-- DocToJira._validate_issue_input: evaluates every rule — summary
empty/blank, summary over 255 characters after trimming (an elif, mutually
exclusive with emptiness), description empty/blank, issue type empty/blank —
collecting all violated rules, and raises a single JiraValidationError
listing them; succeeds when no rule is violated.  Python's
`not s or not s.strip()` is equivalent to `(strip s).isEmpty`. -/
def DocToJira.validate_issue_input (summary description issuetype : String) :
    Except JiraError Unit :=
  let errors : List String :=
    (if (strip summary).isEmpty then ["Summary cannot be empty"]
     else if (strip summary).length > 255 then ["Summary cannot exceed 255 characters"]
     else []) ++
    (if (strip description).isEmpty then ["Description cannot be empty"] else []) ++
    (if (strip issuetype).isEmpty then ["Issue type cannot be empty"] else [])
  if errors.isEmpty then Except.ok ()
  else Except.error (JiraError.validationError errors)

/-- The `issue_fields` dict built by create_jira_issue before its retry loop:
the configured project key together with the trimmed inputs. -/
structure IssueFields where
  project_key : Option String
  summary : String
  description : String
  issuetype : String
  deriving DecidableEq, Repr

/-- Observable trace of one `create_jira_issue` call: attempts made, sleeps
in order, the `issue_fields` submitted to the service at each attempt, and
the final outcome (the created issue key on success). -/
structure CreateTrace where
  attempts : Nat
  sleeps : List ℚ
  calls : List IssueFields
  result : Except JiraError String
  deriving DecidableEq, Repr

/-- DocToJira.create_jira_issue: first validates the raw inputs, raising the
JiraValidationError with no attempt, no sleep and no service call on failure;
otherwise builds `issue_fields` from the trimmed inputs and the configured
project key and submits it through the retry loop to the external
`create_issue` capability — `create fields attempt` is the service outcome
for the submitted fields at the 0-based attempt index, and the same
`issue_fields` value is submitted at every attempt (recorded in `calls`).
On exhaustion wraps the last underlying failure in a JiraIssueCreationError
recording the total attempt count `max_retries + 1`; on success returns the
issue key assigned by the service. -/
def DocToJira.create_jira_issue (st : DocToJira)
    (create : IssueFields → Nat → Except String String)
    (summary description issuetype : String) : CreateTrace :=
  match DocToJira.validate_issue_input summary description issuetype with
  | Except.error err =>
      { attempts := 0, sleeps := [], calls := [], result := Except.error err }
  | Except.ok _ =>
    let issue_fields : IssueFields :=
      { project_key := st.jira_project_key
        summary := strip summary
        description := strip description
        issuetype := strip issuetype }
    let r := retryLoop st.retry_delay (fun attempt => create issue_fields attempt) 0
      (st.max_retries + 1)
    { attempts := r.1
      sleeps := r.2.1
      calls := List.replicate r.1 issue_fields
      result :=
        match r.2.2 with
        | Except.ok issue_key => Except.ok issue_key
        | Except.error e =>
            Except.error (JiraError.issueCreationError (st.max_retries + 1) e) }

/-- DocToJira.test_connection: the `current_user()` probe either yields a
user identity or fails with a stringified exception; the method catches every
exception and returns a plain Bool (the model is a total function, so it can
never raise). -/
def DocToJira.test_connection (current_user : Except String String) : Bool :=
  match current_user with
  | Except.ok _ => true
  | Except.error _ => false

/-- A project as fetched from the service by `self.jira_client.project(...)`:
`description` is `none` when the attribute is absent (the getattr default
applies) and `lead` is `none` when `project.lead` is falsy. -/
structure JiraProject where
  key : String
  name : String
  description : Option String
  lead : Option String
  deriving DecidableEq, Repr

/-- The `project_info` dict returned by get_project_info. -/
structure ProjectInfo where
  key : String
  name : String
  description : String
  lead : String
  deriving DecidableEq, Repr

/-- DocToJira.get_project_info: on a successful fetch builds the info record,
defaulting the description to "No description" (getattr default) and the
lead to "No lead assigned" (falsy check); on any failure catches the
exception and returns `none` (a total function, so it can never raise). -/
def DocToJira.get_project_info (project : Except String JiraProject) :
    Option ProjectInfo :=
  match project with
  | Except.ok p =>
      some { key := p.key
             name := p.name
             description := p.description.getD "No description"
             lead := match p.lead with
                     | some l => l
                     | none => "No lead assigned" }
  | Except.error _ => none

/-- A raw entry of the JSON batch processed by run_jira_from_json in
main_jira.py: the three optional string-valued keys the loop reads with
`entry.get`. -/
structure Entry where
  user_story : Option String
  deliverables : Option String
  issue_type : Option String
  deriving DecidableEq, Repr

/-- The outcome of the `jira.create_jira_issue(...)` call for one batch
entry, as discriminated by the loop's except-clauses: success with an issue
key, a JiraValidationError, a JiraIssueCreationError, or any other
unexpected exception (each carrying its stringified message). -/
inductive CallOutcome where
  | ok (issue_key : String)
  | validationError (msg : String)
  | issueCreationError (msg : String)
  | unexpected (msg : String)
  deriving DecidableEq, Repr

/-- A record of `results['created_issues']`. -/
structure CreatedIssue where
  entry : Nat
  issue_key : String
  summary : String
  deriving DecidableEq, Repr

/-- A record of `results['failed_issues']`. -/
structure FailedIssue where
  entry : Nat
  error : String
  summary : String
  deriving DecidableEq, Repr

/-- A record of `results['skipped_issues']`. -/
structure SkippedIssue where
  entry : Nat
  reason : String
  deriving DecidableEq, Repr

/-- The `results` dict aggregated by run_jira_from_json. -/
structure Results where
  created_issues : List CreatedIssue
  failed_issues : List FailedIssue
  skipped_issues : List SkippedIssue
  deriving DecidableEq, Repr

/-- Bucket-wise concatenation of two `results` aggregates; appending a
record to one bucket is `Results.append` with a singleton. -/
def Results.append (a b : Results) : Results :=
  { created_issues := a.created_issues ++ b.created_issues
    failed_issues := a.failed_issues ++ b.failed_issues
    skipped_issues := a.skipped_issues ++ b.skipped_issues }

/-- One iteration of the batch loop body of run_jira_from_json for the entry
at 1-based index `i`: extract and trim the three fields (`issue_type`
defaulting to "Story" when the key is absent), skip on missing summary or
missing description without calling the client, otherwise call the client
and sort its outcome into the three buckets, catching JiraValidationError,
JiraIssueCreationError and every unexpected exception alike as a failed
record.  `client i summary description issuetype` stands for the outcome of
`jira.create_jira_issue` for this entry. -/
def processEntry (client : Nat → String → String → String → CallOutcome)
    (i : Nat) (entry : Entry) : Results :=
  let summary := strip (entry.user_story.getD "")
  let description := strip (entry.deliverables.getD "")
  let issuetype := strip (entry.issue_type.getD "Story")
  if summary.isEmpty then
    { created_issues := []
      failed_issues := []
      skipped_issues := [{ entry := i, reason := "Missing or empty 'user_story'" }] }
  else if description.isEmpty then
    { created_issues := []
      failed_issues := []
      skipped_issues := [{ entry := i, reason := "Missing or empty 'deliverables'" }] }
  else
    match client i summary description issuetype with
    | CallOutcome.ok issue_key =>
        { created_issues := [{ entry := i, issue_key := issue_key, summary := summary }]
          failed_issues := []
          skipped_issues := [] }
    | CallOutcome.validationError msg =>
        { created_issues := []
          failed_issues := [{ entry := i, error := msg, summary := entry.user_story.getD "Unknown" }]
          skipped_issues := [] }
    | CallOutcome.issueCreationError msg =>
        { created_issues := []
          failed_issues := [{ entry := i, error := msg, summary := entry.user_story.getD "Unknown" }]
          skipped_issues := [] }
    | CallOutcome.unexpected msg =>
        { created_issues := []
          failed_issues := [{ entry := i, error := msg, summary := entry.user_story.getD "Unknown" }]
          skipped_issues := [] }

/-- The `for i, entry in enumerate(user_stories, 1)` loop of
run_jira_from_json, started at 1-based index `i`: each entry appends its
record to exactly one bucket and the loop always continues with the next
entry (every exception of the body is caught inside the body). -/
def runStoriesFrom (client : Nat → String → String → String → CallOutcome) :
    Nat → List Entry → Results
  | _, [] => { created_issues := [], failed_issues := [], skipped_issues := [] }
  | i, entry :: rest =>
      Results.append (processEntry client i entry) (runStoriesFrom client (i + 1) rest)

/-- The per-entry processing core of run_jira_from_json in main_jira.py: the
enumerate loop over the parsed user stories, starting at index 1.  The
surrounding connection setup, file reading and console reporting are
external collaborators outside this core. -/
def run_jira_from_json (client : Nat → String → String → String → CallOutcome)
    (user_stories : List Entry) : Results :=
  runStoriesFrom client 1 user_stories

/-- Modelled from the spec (amended): the batch-entry step as §4.5 of the
spec describes it — extract summary from `user_story`, description from
`deliverables` and issue type from `issue_type` defaulting to "Story" when
absent; skip with the recorded reason when the summary, then the
description, is empty after trimming, consulting the create-issue capability
in neither case; only otherwise invoke the capability and bucket its
outcome.  `createIssue` takes no entry index, so a skip cannot depend on the
client at all.  Written for comparison with `processEntry`. -/
def specProcessEntry (createIssue : String → String → String → CallOutcome)
    (i : Nat) (entry : Entry) : Results :=
  let summary := strip (entry.user_story.getD "")
  let description := strip (entry.deliverables.getD "")
  if summary.isEmpty then
    { created_issues := []
      failed_issues := []
      skipped_issues := [{ entry := i, reason := "Missing or empty 'user_story'" }] }
  else if description.isEmpty then
    { created_issues := []
      failed_issues := []
      skipped_issues := [{ entry := i, reason := "Missing or empty 'deliverables'" }] }
  else
    match createIssue summary description (strip (entry.issue_type.getD "Story")) with
    | CallOutcome.ok issue_key =>
        { created_issues := [{ entry := i, issue_key := issue_key, summary := summary }]
          failed_issues := []
          skipped_issues := [] }
    | CallOutcome.validationError msg =>
        { created_issues := []
          failed_issues := [{ entry := i, error := msg, summary := entry.user_story.getD "Unknown" }]
          skipped_issues := [] }
    | CallOutcome.issueCreationError msg =>
        { created_issues := []
          failed_issues := [{ entry := i, error := msg, summary := entry.user_story.getD "Unknown" }]
          skipped_issues := [] }
    | CallOutcome.unexpected msg =>
        { created_issues := []
          failed_issues := [{ entry := i, error := msg, summary := entry.user_story.getD "Unknown" }]
          skipped_issues := [] }

/-- A 256-character summary, used as the over-length validator input. -/
def longSummary256 : String := String.mk (List.replicate 256 'a')

/-- A concrete client configuration used to instantiate theorems with
hypotheses at explicit inputs. -/
def sampleClient : DocToJira :=
  { max_retries := 2
    retry_delay := 1
    jira_base_url := some "https://example.atlassian.net"
    jira_email := some "dev@example.com"
    jira_api_token := some "token"
    jira_project_key := some "PROJ" }

/-- A sleep delay consed onto the exponential sleep sequence started one
attempt later is the exponential sleep sequence one element longer. -/
theorem sleeps_cons (d : ℚ) (attempt n : Nat) :
    d * 2 ^ attempt :: (List.range n).map (fun j => d * 2 ^ (attempt + 1 + j)) =
      (List.range (n + 1)).map (fun j => d * 2 ^ (attempt + j)) := by
  have hf : ((fun j => d * 2 ^ (attempt + j)) ∘ Nat.succ) =
      fun j => d * 2 ^ (attempt + 1 + j) := by
    funext j
    have h : attempt + Nat.succ j = attempt + 1 + j := by omega
    simp only [Function.comp_apply, h]
  rw [List.range_succ_eq_map, List.map_cons, List.map_map, hf]
  simp

/-- Unfolding the retry loop one step on a failing non-final attempt: one
more attempt, one sleep of the current exponential delay, then the rest. -/
theorem retryLoop_step_error {α : Type} (d : ℚ) (op : Nat → Except String α)
    (attempt fuel : Nat) (e : String)
    (he : op attempt = Except.error e) (hf : 0 < fuel) :
    retryLoop d op attempt (fuel + 1) =
      ((retryLoop d op (attempt + 1) fuel).1 + 1,
        d * 2 ^ attempt :: (retryLoop d op (attempt + 1) fuel).2.1,
        (retryLoop d op (attempt + 1) fuel).2.2) := by
  simp [retryLoop, he, hf]

/-- Unfolding the retry loop on a failing final attempt: the error is
propagated with no sleep. -/
theorem retryLoop_step_last {α : Type} (d : ℚ) (op : Nat → Except String α)
    (attempt : Nat) (e : String) (he : op attempt = Except.error e) :
    retryLoop d op attempt 1 = (1, [], Except.error e) := by
  simp [retryLoop, he]

/-- Unfolding the retry loop on a successful attempt: the value is returned
at once with no further attempt and no sleep. -/
theorem retryLoop_step_ok {α : Type} (d : ℚ) (op : Nat → Except String α)
    (attempt fuel : Nat) (v : α) (hv : op attempt = Except.ok v) :
    retryLoop d op attempt (fuel + 1) = (1, [], Except.ok v) := by
  simp [retryLoop, hv]

/-- The retry loop on a permanently failing operation consumes all its fuel:
one attempt per unit of fuel, an exponential sleep after every non-final
failure, and the last attempt's error as the final outcome. -/
theorem retryLoop_allFail {α : Type} (d : ℚ) (f : Nat → String) :
    ∀ (fuel attempt : Nat),
      retryLoop (α := α) d (fun i => Except.error (f i)) attempt (fuel + 1) =
        (fuel + 1, (List.range fuel).map (fun j => d * 2 ^ (attempt + j)),
          Except.error (f (attempt + fuel))) := by
  intro fuel
  induction fuel with
  | zero =>
      intro attempt
      rw [retryLoop_step_last d (fun i => Except.error (f i)) attempt (f attempt) rfl]
      simp
  | succ n ih =>
      intro attempt
      have harg : attempt + 1 + n = attempt + (n + 1) := by omega
      rw [retryLoop_step_error d (fun i => Except.error (f i)) attempt (n + 1)
          (f attempt) rfl (Nat.succ_pos n), ih (attempt + 1), harg]
      dsimp only
      rw [sleeps_cons d attempt n]

/-- The retry loop on an operation that fails on its first k attempts and
succeeds on attempt k+1 performs exactly k+1 attempts with exactly k
exponential sleeps and returns the success value. -/
theorem retryLoop_failThenOk {α : Type} (d : ℚ) (op : Nat → Except String α) (v : α) :
    ∀ (k attempt fuel : Nat), k < fuel →
      (∀ j, j < k → ∃ e, op (attempt + j) = Except.error e) →
      op (attempt + k) = Except.ok v →
      retryLoop d op attempt fuel =
        (k + 1, (List.range k).map (fun j => d * 2 ^ (attempt + j)), Except.ok v) := by
  intro k
  induction k with
  | zero =>
      intro attempt fuel hk hfail hok
      obtain ⟨m, rfl⟩ : ∃ m, fuel = m + 1 := ⟨fuel - 1, by omega⟩
      have hok2 : op attempt = Except.ok v := by simpa using hok
      rw [retryLoop_step_ok d op attempt m v hok2]
      simp
  | succ k ih =>
      intro attempt fuel hk hfail hok
      obtain ⟨m, rfl⟩ : ∃ m, fuel = m + 1 := ⟨fuel - 1, by omega⟩
      obtain ⟨e, he⟩ := hfail 0 (Nat.succ_pos k)
      have he2 : op attempt = Except.error e := by simpa using he
      have hm : 0 < m := by omega
      have hfail2 : ∀ j, j < k → ∃ e2, op (attempt + 1 + j) = Except.error e2 := by
        intro j hj
        have h := hfail (j + 1) (by omega)
        have harg : attempt + (j + 1) = attempt + 1 + j := by omega
        rwa [harg] at h
      have hok2 : op (attempt + 1 + k) = Except.ok v := by
        have harg : attempt + (k + 1) = attempt + 1 + k := by omega
        rwa [harg] at hok
      have ihh := ih (attempt + 1) m (by omega) hfail2 hok2
      rw [retryLoop_step_error d op attempt m e he2 hm, ihh]
      dsimp only
      rw [sleeps_cons d attempt k]

/-- Claim C1: with max_retries = n and initial delay d > 0, a permanently
failing operation — connection establishment in _connect_to_jira, or issue
creation in create_jira_issue on inputs passing validation — is attempted
exactly n+1 times, sleeping between consecutive attempts with delays
d, 2d, 4d, ..., d*2^(n-1) in that order (exactly n sleeps, the map over
List.range n), and then the terminal error (JiraConnectionError, resp.
JiraIssueCreationError) referencing n+1 attempts is raised; for n = 0 this
specializes to one attempt, an empty sleep list, and immediate failure. -/
theorem claim_C1 {α : Type} (st : DocToJira) (d : ℚ) (hd : 0 < d)
    (hdel : st.retry_delay = d) (f g : Nat → String)
    (summary description issuetype : String)
    (hval : DocToJira.validate_issue_input summary description issuetype = Except.ok ()) :
    DocToJira.connect_to_jira st (fun i => (Except.error (f i) : Except String α)) =
      { attempts := st.max_retries + 1
        sleeps := (List.range st.max_retries).map (fun j => d * 2 ^ j)
        result := Except.error
          (JiraError.connectionError (st.max_retries + 1) (f st.max_retries)) } ∧
    DocToJira.create_jira_issue st (fun _ i => Except.error (g i))
        summary description issuetype =
      { attempts := st.max_retries + 1
        sleeps := (List.range st.max_retries).map (fun j => d * 2 ^ j)
        calls := List.replicate (st.max_retries + 1)
          { project_key := st.jira_project_key
            summary := strip summary
            description := strip description
            issuetype := strip issuetype }
        result := Except.error
          (JiraError.issueCreationError (st.max_retries + 1) (g st.max_retries)) } := by
  constructor
  · simp only [DocToJira.connect_to_jira, hdel]
    rw [retryLoop_allFail (α := α) d f st.max_retries 0]
    simp
  · simp only [DocToJira.create_jira_issue, hval, hdel]
    rw [retryLoop_allFail (α := String) d g st.max_retries 0]
    simp

/-- Witness for claim C1: max_retries = 2, delay 1, both operations failing
permanently, on inputs passing validation. -/
theorem claim_C1_witness :
    ((0:ℚ) < 1 ∧ sampleClient.retry_delay = 1 ∧
      DocToJira.validate_issue_input "s" "d" "Story" = Except.ok ()) ∧
    (DocToJira.connect_to_jira sampleClient
        (fun _ => (Except.error "boom" : Except String Unit)) =
      { attempts := 3
        sleeps := (List.range 2).map (fun j => (1:ℚ) * 2 ^ j)
        result := Except.error (JiraError.connectionError 3 "boom") } ∧
     DocToJira.create_jira_issue sampleClient (fun _ _ => Except.error "crash")
        "s" "d" "Story" =
      { attempts := 3
        sleeps := (List.range 2).map (fun j => (1:ℚ) * 2 ^ j)
        calls := List.replicate 3
          { project_key := some "PROJ"
            summary := strip "s"
            description := strip "d"
            issuetype := strip "Story" }
        result := Except.error (JiraError.issueCreationError 3 "crash") }) :=
  ⟨⟨by decide, rfl, by decide⟩,
    claim_C1 (α := Unit) sampleClient 1 (by decide) rfl (fun _ => "boom")
      (fun _ => "crash") "s" "d" "Story" (by decide)⟩

/-- Claim C2: with max_retries = n, an operation failing on its first k
attempts (k < n+1) and succeeding on attempt k+1 — for both the connection
loop and the issue-creation loop on inputs passing validation — returns that
attempt's success value after exactly k+1 attempts and exactly k sleeps
d, 2d, ..., d*2^(k-1) matching the exponential sequence, with no further
attempt and no further sleep after the success. -/
theorem claim_C2 {α : Type} (st : DocToJira) (d : ℚ) (hdel : st.retry_delay = d)
    (k : Nat) (hk : k < st.max_retries + 1) (f g : Nat → String) (v : α) (key : String)
    (summary description issuetype : String)
    (hval : DocToJira.validate_issue_input summary description issuetype = Except.ok ()) :
    DocToJira.connect_to_jira st
        (fun i => if i < k then Except.error (f i) else Except.ok v) =
      { attempts := k + 1
        sleeps := (List.range k).map (fun j => d * 2 ^ j)
        result := Except.ok v } ∧
    DocToJira.create_jira_issue st
        (fun _ i => if i < k then Except.error (g i) else Except.ok key)
        summary description issuetype =
      { attempts := k + 1
        sleeps := (List.range k).map (fun j => d * 2 ^ j)
        calls := List.replicate (k + 1)
          { project_key := st.jira_project_key
            summary := strip summary
            description := strip description
            issuetype := strip issuetype }
        result := Except.ok key } := by
  constructor
  · simp only [DocToJira.connect_to_jira, hdel]
    rw [retryLoop_failThenOk d _ v k 0 (st.max_retries + 1) hk
        (fun j hj => ⟨f j, by simp [Nat.zero_add, hj]⟩) (by simp)]
    simp
  · simp only [DocToJira.create_jira_issue, hval, hdel]
    rw [retryLoop_failThenOk d _ key k 0 (st.max_retries + 1) hk
        (fun j hj => ⟨g j, by simp [Nat.zero_add, hj]⟩) (by simp)]
    simp

/-- Witness for claim C2: max_retries = 2, delay 1, one failure then
success on the second attempt, on inputs passing validation. -/
theorem claim_C2_witness :
    (sampleClient.retry_delay = 1 ∧ 1 < sampleClient.max_retries + 1 ∧
      DocToJira.validate_issue_input "s" "d" "Story" = Except.ok ()) ∧
    (DocToJira.connect_to_jira sampleClient
        (fun i => if i < 1 then (Except.error "boom" : Except String Unit)
                  else Except.ok ()) =
      { attempts := 2
        sleeps := (List.range 1).map (fun j => (1:ℚ) * 2 ^ j)
        result := Except.ok () } ∧
     DocToJira.create_jira_issue sampleClient
        (fun _ i => if i < 1 then Except.error "crash" else Except.ok "PROJ-9")
        "s" "d" "Story" =
      { attempts := 2
        sleeps := (List.range 1).map (fun j => (1:ℚ) * 2 ^ j)
        calls := List.replicate 2
          { project_key := some "PROJ"
            summary := strip "s"
            description := strip "d"
            issuetype := strip "Story" }
        result := Except.ok "PROJ-9" }) :=
  ⟨⟨rfl, by decide, by decide⟩,
    claim_C2 (α := Unit) sampleClient 1 rfl 1 (by decide) (fun _ => "boom")
      (fun _ => "crash") () "PROJ-9" "s" "d" "Story" (by decide)⟩

/-- Claim C7: when validation of the request fields fails, create_jira_issue
raises the JiraValidationError immediately: zero attempts, zero sleeps, and
no call to the external create-issue capability, whatever the client is; and
the error raised is indeed a validation error with a nonempty rule list. -/
theorem claim_C7 (st : DocToJira) (create : IssueFields → Nat → Except String String)
    (summary description issuetype : String) (err : JiraError)
    (hval : DocToJira.validate_issue_input summary description issuetype =
      Except.error err) :
    DocToJira.create_jira_issue st create summary description issuetype =
      { attempts := 0, sleeps := [], calls := [], result := Except.error err } ∧
    ∃ errors, errors ≠ [] ∧ err = JiraError.validationError errors := by
  constructor
  · simp only [DocToJira.create_jira_issue, hval]
  · simp only [DocToJira.validate_issue_input] at hval
    repeat' split at hval
    all_goals (try exact Except.noConfusion hval)
    all_goals rename_i hne
    all_goals injection hval with h
    all_goals first
      | exact absurd rfl hne
      | exact ⟨_, by simp, h.symm⟩

/-- Witness for claim C7: an empty summary is rejected with no attempt, no
sleep and no service call. -/
theorem claim_C7_witness :
    (DocToJira.validate_issue_input "" "d" "Bug" =
      Except.error (JiraError.validationError ["Summary cannot be empty"])) ∧
    (DocToJira.create_jira_issue sampleClient (fun _ _ => Except.ok "K") "" "d" "Bug" =
      { attempts := 0, sleeps := [], calls := [],
        result := Except.error (JiraError.validationError ["Summary cannot be empty"]) } ∧
     ∃ errors, errors ≠ [] ∧
       JiraError.validationError ["Summary cannot be empty"] =
         JiraError.validationError errors) :=
  ⟨by decide, claim_C7 sampleClient (fun _ _ => Except.ok "K") "" "d" "Bug"
      (JiraError.validationError ["Summary cannot be empty"]) (by decide)⟩

/-- Claim C8: on retry exhaustion _connect_to_jira raises a
JiraConnectionError and create_jira_issue raises a JiraIssueCreationError;
both wrap the last underlying failure (the error of the final attempt, index
max_retries) as their cause, and their message states the total attempt
count max_retries + 1 and includes that cause. -/
theorem claim_C8 {α : Type} (st : DocToJira) (f g : Nat → String)
    (summary description issuetype : String)
    (hval : DocToJira.validate_issue_input summary description issuetype = Except.ok ()) :
    ((DocToJira.connect_to_jira st
        (fun i => (Except.error (f i) : Except String α))).result =
      Except.error (JiraError.connectionError (st.max_retries + 1) (f st.max_retries)) ∧
     (JiraError.connectionError (st.max_retries + 1) (f st.max_retries)).message =
       "Failed to connect to Jira after " ++ toString (st.max_retries + 1) ++
         " attempts: " ++ f st.max_retries) ∧
    ((DocToJira.create_jira_issue st (fun _ i => Except.error (g i))
        summary description issuetype).result =
      Except.error (JiraError.issueCreationError (st.max_retries + 1) (g st.max_retries)) ∧
     (JiraError.issueCreationError (st.max_retries + 1) (g st.max_retries)).message =
       "Failed to create Jira issue after " ++ toString (st.max_retries + 1) ++
         " attempts: " ++ g st.max_retries) := by
  refine ⟨⟨?_, rfl⟩, ⟨?_, rfl⟩⟩
  · simp only [DocToJira.connect_to_jira]
    rw [retryLoop_allFail (α := α) st.retry_delay f st.max_retries 0]
    simp
  · simp only [DocToJira.create_jira_issue, hval]
    rw [retryLoop_allFail (α := String) st.retry_delay g st.max_retries 0]
    simp

/-- Witness for claim C8 at max_retries = 2 with distinct per-attempt
causes, checking the last one is wrapped. -/
theorem claim_C8_witness :
    (DocToJira.validate_issue_input "w" "x" "Bug" = Except.ok ()) ∧
    (((DocToJira.connect_to_jira sampleClient
        (fun i => (Except.error (String.append "c" (toString i)) : Except String Unit))).result =
      Except.error (JiraError.connectionError 3 (String.append "c" (toString 2))) ∧
     (JiraError.connectionError 3 (String.append "c" (toString 2))).message =
       "Failed to connect to Jira after " ++ toString 3 ++
         " attempts: " ++ String.append "c" (toString 2)) ∧
    ((DocToJira.create_jira_issue sampleClient
        (fun _ i => Except.error (String.append "e" (toString i))) "w" "x" "Bug").result =
      Except.error (JiraError.issueCreationError 3 (String.append "e" (toString 2))) ∧
     (JiraError.issueCreationError 3 (String.append "e" (toString 2))).message =
       "Failed to create Jira issue after " ++ toString 3 ++
         " attempts: " ++ String.append "e" (toString 2))) :=
  ⟨by decide,
    claim_C8 (α := Unit) sampleClient (fun i => String.append "c" (toString i))
      (fun i => String.append "e" (toString i)) "w" "x" "Bug" (by decide)⟩

/-- Claim C10: for a request passing validation, create_jira_issue submits
to the external service the trimmed summary, trimmed description and trimmed
issue type together with the client's configured project key — not the raw
inputs — and, when the service succeeds (here on the first attempt), returns
exactly the identifier the service assigned. -/
theorem claim_C10 (st : DocToJira) (create : IssueFields → Nat → Except String String)
    (summary description issuetype : String) (key : String)
    (hval : DocToJira.validate_issue_input summary description issuetype = Except.ok ())
    (hok : create { project_key := st.jira_project_key, summary := strip summary,
                    description := strip description, issuetype := strip issuetype } 0 =
      Except.ok key) :
    DocToJira.create_jira_issue st create summary description issuetype =
      { attempts := 1
        sleeps := []
        calls := [{ project_key := st.jira_project_key, summary := strip summary,
                    description := strip description, issuetype := strip issuetype }]
        result := Except.ok key } := by
  simp only [DocToJira.create_jira_issue, hval]
  rw [retryLoop_step_ok st.retry_delay _ 0 st.max_retries key hok]
  simp

/-- Witness for claim C10: raw inputs carrying surrounding whitespace are
submitted trimmed, with the configured project key, and the service's key is
returned unchanged. -/
theorem claim_C10_witness :
    (DocToJira.validate_issue_input " t1 " " t2 " " Task " = Except.ok () ∧
      (fun (_ : IssueFields) (_ : Nat) => Except.ok "PROJ-7")
          { project_key := sampleClient.jira_project_key, summary := strip " t1 ",
            description := strip " t2 ", issuetype := strip " Task " } 0 =
        (Except.ok "PROJ-7" : Except String String)) ∧
    DocToJira.create_jira_issue sampleClient (fun _ _ => Except.ok "PROJ-7")
        " t1 " " t2 " " Task " =
      { attempts := 1
        sleeps := []
        calls := [{ project_key := sampleClient.jira_project_key, summary := strip " t1 ",
                    description := strip " t2 ", issuetype := strip " Task " }]
        result := Except.ok "PROJ-7" } :=
  ⟨⟨by decide, rfl⟩,
    claim_C10 sampleClient (fun _ _ => Except.ok "PROJ-7") " t1 " " t2 " " Task "
      "PROJ-7" (by decide) rfl⟩

set_option maxRecDepth 4000 in
/-- Claim C5: the issue-request validator evaluates all rules without
short-circuiting across fields and reports every violated rule: the result
is ok exactly when the violated-rule list is empty, and otherwise a
JiraValidationError carrying exactly the violated rules (membership of each
message is equivalent to its rule being violated), whose message joins them
all; in particular ("", "d", "Bug"), ("s", "", "Bug"), ("s", "d", "") and a
256-character summary are each rejected with the specific corresponding
message, and ("", "", "") reports all three missing-field messages
jointly. -/
theorem claim_C5 (summary description issuetype : String) :
    (∃ errors : List String,
       DocToJira.validate_issue_input summary description issuetype =
         (if errors = [] then Except.ok ()
          else Except.error (JiraError.validationError errors)) ∧
       (("Summary cannot be empty" ∈ errors) ↔ (strip summary).isEmpty = true) ∧
       (("Summary cannot exceed 255 characters" ∈ errors) ↔
         ((strip summary).isEmpty = false ∧ 255 < (strip summary).length)) ∧
       (("Description cannot be empty" ∈ errors) ↔ (strip description).isEmpty = true) ∧
       (("Issue type cannot be empty" ∈ errors) ↔ (strip issuetype).isEmpty = true) ∧
       JiraError.message (JiraError.validationError errors) =
         "Input validation failed: " ++ String.intercalate "; " errors) ∧
    DocToJira.validate_issue_input "" "d" "Bug" =
      Except.error (JiraError.validationError ["Summary cannot be empty"]) ∧
    DocToJira.validate_issue_input "s" "" "Bug" =
      Except.error (JiraError.validationError ["Description cannot be empty"]) ∧
    DocToJira.validate_issue_input "s" "d" "" =
      Except.error (JiraError.validationError ["Issue type cannot be empty"]) ∧
    DocToJira.validate_issue_input longSummary256 "d" "Bug" =
      Except.error (JiraError.validationError ["Summary cannot exceed 255 characters"]) ∧
    DocToJira.validate_issue_input "" "" "" =
      Except.error (JiraError.validationError
        ["Summary cannot be empty", "Description cannot be empty",
         "Issue type cannot be empty"]) ∧
    JiraError.message (JiraError.validationError
        ["Summary cannot be empty", "Description cannot be empty",
         "Issue type cannot be empty"]) =
      "Input validation failed: Summary cannot be empty; Description cannot be empty; Issue type cannot be empty" := by
  refine ⟨?_, by decide, by decide, by decide, by decide, by decide, by decide⟩
  refine ⟨(if (strip summary).isEmpty then ["Summary cannot be empty"]
      else if (strip summary).length > 255 then ["Summary cannot exceed 255 characters"]
      else []) ++
    (if (strip description).isEmpty then ["Description cannot be empty"] else []) ++
    (if (strip issuetype).isEmpty then ["Issue type cannot be empty"] else []),
    ?_, ?_, ?_, ?_, ?_, rfl⟩
  all_goals
    (by_cases h1 : (strip summary).isEmpty = true <;>
     by_cases h2 : 255 < (strip summary).length <;>
     by_cases h3 : (strip description).isEmpty = true <;>
     by_cases h4 : (strip issuetype).isEmpty = true <;>
     simp [DocToJira.validate_issue_input, h1, h2, h3, h4])

/-- Claim C6: the configuration validator succeeds exactly when all four
credentials are present and non-empty; otherwise it raises a single
JiraConfigurationError whose missing-variable list contains exactly the
names of the missing/empty fields (collected without short-circuiting) and
whose message enumerates them; in particular a configuration missing two of
the four fields reports exactly those two names. -/
theorem claim_C6 (st : DocToJira) :
    (DocToJira.validate_configuration st = Except.ok () ↔
      (truthy st.jira_base_url = true ∧ truthy st.jira_email = true ∧
       truthy st.jira_api_token = true ∧ truthy st.jira_project_key = true)) ∧
    (∃ missing : List String,
       DocToJira.validate_configuration st =
         (if missing = [] then Except.ok ()
          else Except.error (JiraError.configurationError missing)) ∧
       (("JIRA_BASE_URL" ∈ missing) ↔ truthy st.jira_base_url = false) ∧
       (("JIRA_EMAIL" ∈ missing) ↔ truthy st.jira_email = false) ∧
       (("JIRA_API_TOKEN" ∈ missing) ↔ truthy st.jira_api_token = false) ∧
       (("JIRA_PROJECT_KEY" ∈ missing) ↔ truthy st.jira_project_key = false) ∧
       JiraError.message (JiraError.configurationError missing) =
         "Missing required environment variables: " ++ String.intercalate ", " missing ++
           ". Please ensure all Jira credentials are configured.") ∧
    DocToJira.validate_configuration
        { max_retries := 3, retry_delay := 1,
          jira_base_url := some "https://example.atlassian.net", jira_email := none,
          jira_api_token := some "token", jira_project_key := some "" } =
      Except.error (JiraError.configurationError ["JIRA_EMAIL", "JIRA_PROJECT_KEY"]) := by
  refine ⟨?_, ?_, by decide⟩
  · by_cases h1 : truthy st.jira_base_url = true <;>
    by_cases h2 : truthy st.jira_email = true <;>
    by_cases h3 : truthy st.jira_api_token = true <;>
    by_cases h4 : truthy st.jira_project_key = true <;>
    simp [DocToJira.validate_configuration, h1, h2, h3, h4]
  · refine ⟨(if truthy st.jira_base_url then [] else ["JIRA_BASE_URL"]) ++
      (if truthy st.jira_email then [] else ["JIRA_EMAIL"]) ++
      (if truthy st.jira_api_token then [] else ["JIRA_API_TOKEN"]) ++
      (if truthy st.jira_project_key then [] else ["JIRA_PROJECT_KEY"]),
      ?_, ?_, ?_, ?_, ?_, rfl⟩
    all_goals
      (by_cases h1 : truthy st.jira_base_url = true <;>
       by_cases h2 : truthy st.jira_email = true <;>
       by_cases h3 : truthy st.jira_api_token = true <;>
       by_cases h4 : truthy st.jira_project_key = true <;>
       simp [DocToJira.validate_configuration, h1, h2, h3, h4])

/-- Claim C9: test_connection and get_project_info are total functions of
the service outcome (every exception of the underlying calls is caught, so
neither can raise): test_connection returns true exactly when the
current-user probe succeeds and false exactly on a failure; get_project_info
returns the structured {key, name, description, lead} record exactly when
the project fetch succeeds, and none exactly on a failure. -/
theorem claim_C9 (user_probe : Except String String)
    (project_fetch : Except String JiraProject) :
    (DocToJira.test_connection user_probe = true ↔ ∃ u, user_probe = Except.ok u) ∧
    (DocToJira.test_connection user_probe = false ↔ ∃ e, user_probe = Except.error e) ∧
    ((∃ p, project_fetch = Except.ok p ∧
        DocToJira.get_project_info project_fetch =
          some { key := p.key, name := p.name,
                 description := p.description.getD "No description",
                 lead := match p.lead with
                         | some l => l
                         | none => "No lead assigned" }) ∨
     (∃ e, project_fetch = Except.error e ∧
        DocToJira.get_project_info project_fetch = none)) := by
  refine ⟨?_, ?_, ?_⟩ <;>
    cases user_probe <;> cases project_fetch <;>
    simp [DocToJira.test_connection, DocToJira.get_project_info]

/-- Each batch-loop iteration contributes exactly one record, carrying the
iteration's own 1-based index, to exactly one of the three buckets. -/
theorem processEntry_singleBucket (client : Nat → String → String → String → CallOutcome)
    (i : Nat) (e : Entry) :
    ((processEntry client i e).created_issues.map (fun r => r.entry) = [i] ∧
      (processEntry client i e).failed_issues = [] ∧
      (processEntry client i e).skipped_issues = []) ∨
    ((processEntry client i e).created_issues = [] ∧
      (processEntry client i e).failed_issues.map (fun r => r.entry) = [i] ∧
      (processEntry client i e).skipped_issues = []) ∨
    ((processEntry client i e).created_issues = [] ∧
      (processEntry client i e).failed_issues = [] ∧
      (processEntry client i e).skipped_issues.map (fun r => r.entry) = [i]) := by
  unfold processEntry
  by_cases h1 : (strip (e.user_story.getD "")).isEmpty = true
  · simp [h1]
  · by_cases h2 : (strip (e.deliverables.getD "")).isEmpty = true
    · simp [h1, h2]
    · cases hc : client i (strip (e.user_story.getD "")) (strip (e.deliverables.getD ""))
          (strip (e.issue_type.getD "Story")) <;>
        simp [h1, h2, hc]

/-- Partition invariant of the batch loop, generalized over the starting
index: the bucket sizes sum to the number of entries, each bucket's index
list is a subsequence of the processed index range (so buckets respect
input order), and every index of the range is claimed exactly once across
the three buckets. -/
theorem runStoriesFrom_partition (client : Nat → String → String → String → CallOutcome)
    (es : List Entry) : ∀ i : Nat,
    (runStoriesFrom client i es).created_issues.length +
      (runStoriesFrom client i es).failed_issues.length +
      (runStoriesFrom client i es).skipped_issues.length = es.length ∧
    ((runStoriesFrom client i es).created_issues.map (fun r => r.entry)).Sublist
      (List.range' i es.length) ∧
    ((runStoriesFrom client i es).failed_issues.map (fun r => r.entry)).Sublist
      (List.range' i es.length) ∧
    ((runStoriesFrom client i es).skipped_issues.map (fun r => r.entry)).Sublist
      (List.range' i es.length) ∧
    ∀ j : Nat,
      ((runStoriesFrom client i es).created_issues.map (fun r => r.entry)).count j +
      ((runStoriesFrom client i es).failed_issues.map (fun r => r.entry)).count j +
      ((runStoriesFrom client i es).skipped_issues.map (fun r => r.entry)).count j =
        (List.range' i es.length).count j := by
  induction es with
  | nil =>
      intro i
      simp [runStoriesFrom]
  | cons e rest ih =>
      intro i
      obtain ⟨hlen, hc, hf, hs, hcount⟩ := ih (i + 1)
      have hone := processEntry_singleBucket client i e
      simp only [runStoriesFrom, Results.append, List.length_cons, List.range'_succ]
      rcases hone with ⟨h1, h2, h3⟩ | ⟨h1, h2, h3⟩ | ⟨h1, h2, h3⟩
      · have hlen1 : (processEntry client i e).created_issues.length = 1 := by
          simpa using congrArg List.length h1
        refine ⟨?_, ?_, ?_, ?_, ?_⟩
        · simp only [List.length_append, h2, h3, List.length_nil]
          omega
        · rw [List.map_append, h1, List.singleton_append]
          exact List.Sublist.cons₂ i hc
        · rw [List.map_append, h2, List.map_nil, List.nil_append]
          exact hf.cons i
        · rw [List.map_append, h3, List.map_nil, List.nil_append]
          exact hs.cons i
        · intro j
          have hcj := hcount j
          simp only [List.map_append, h1, h2, h3, List.map_nil, List.count_append,
            List.count_nil, List.count_cons, List.count_singleton, beq_iff_eq]
          by_cases hj : i = j
          · subst hj
            simp only [if_pos rfl]
            omega
          · simp only [if_neg hj, if_neg (Ne.symm hj)]
            omega
      · have hlen1 : (processEntry client i e).failed_issues.length = 1 := by
          simpa using congrArg List.length h2
        refine ⟨?_, ?_, ?_, ?_, ?_⟩
        · simp only [List.length_append, h1, h3, List.length_nil]
          omega
        · rw [List.map_append, h1, List.map_nil, List.nil_append]
          exact hc.cons i
        · rw [List.map_append, h2, List.singleton_append]
          exact List.Sublist.cons₂ i hf
        · rw [List.map_append, h3, List.map_nil, List.nil_append]
          exact hs.cons i
        · intro j
          have hcj := hcount j
          simp only [List.map_append, h1, h2, h3, List.map_nil, List.count_append,
            List.count_nil, List.count_cons, List.count_singleton, beq_iff_eq]
          by_cases hj : i = j
          · subst hj
            simp only [if_pos rfl]
            omega
          · simp only [if_neg hj, if_neg (Ne.symm hj)]
            omega
      · have hlen1 : (processEntry client i e).skipped_issues.length = 1 := by
          simpa using congrArg List.length h3
        refine ⟨?_, ?_, ?_, ?_, ?_⟩
        · simp only [List.length_append, h1, h2, List.length_nil]
          omega
        · rw [List.map_append, h1, List.map_nil, List.nil_append]
          exact hc.cons i
        · rw [List.map_append, h2, List.map_nil, List.nil_append]
          exact hf.cons i
        · rw [List.map_append, h3, List.singleton_append]
          exact List.Sublist.cons₂ i hs
        · intro j
          have hcj := hcount j
          simp only [List.map_append, h1, h2, h3, List.map_nil, List.count_append,
            List.count_nil, List.count_cons, List.count_singleton, beq_iff_eq]
          by_cases hj : i = j
          · subst hj
            simp only [if_pos rfl]
            omega
          · simp only [if_neg hj, if_neg (Ne.symm hj)]
            omega

/-- Claim C3: every entry of the input batch is attempted and its record
lands in exactly one of the three buckets, keyed by its 1-based input
position; within each bucket the indices appear in input order (each
bucket's index list is a subsequence of [1..n], the list List.range' 1 n);
the bucket sizes sum exactly to the input length; and, the loop being a
total function that emits one record per entry, a failure (expected or
unexpected, all caught by the loop body) on one entry never aborts the
processing of the remaining entries.  "Exactly one bucket" is the count
equation: every index of [1..n] occurs exactly once across the three
buckets. -/
theorem claim_C3 (client : Nat → String → String → String → CallOutcome)
    (user_stories : List Entry) :
    (run_jira_from_json client user_stories).created_issues.length +
      (run_jira_from_json client user_stories).failed_issues.length +
      (run_jira_from_json client user_stories).skipped_issues.length =
        user_stories.length ∧
    ((run_jira_from_json client user_stories).created_issues.map
      (fun r => r.entry)).Sublist (List.range' 1 user_stories.length) ∧
    ((run_jira_from_json client user_stories).failed_issues.map
      (fun r => r.entry)).Sublist (List.range' 1 user_stories.length) ∧
    ((run_jira_from_json client user_stories).skipped_issues.map
      (fun r => r.entry)).Sublist (List.range' 1 user_stories.length) ∧
    ∀ j : Nat,
      ((run_jira_from_json client user_stories).created_issues.map
        (fun r => r.entry)).count j +
      ((run_jira_from_json client user_stories).failed_issues.map
        (fun r => r.entry)).count j +
      ((run_jira_from_json client user_stories).skipped_issues.map
        (fun r => r.entry)).count j =
        (List.range' 1 user_stories.length).count j :=
  runStoriesFrom_partition client user_stories 1

/-- Counterexample to claim C4 as stated: for an entry with no user_story
key, the recorded skip reason is the string "Missing or empty 'user_story'",
not "missing user_story" (that lowercase text only appears in the console
print, not in the skipped record). -/
theorem claim_C4_counterexample :
    (run_jira_from_json (fun _ _ _ _ => CallOutcome.ok "K")
        [{ user_story := none, deliverables := some "D", issue_type := none }]).skipped_issues =
      [{ entry := 1, reason := "Missing or empty 'user_story'" }] ∧
    ¬ (run_jira_from_json (fun _ _ _ _ => CallOutcome.ok "K")
        [{ user_story := none, deliverables := some "D", issue_type := none }]).skipped_issues =
      [{ entry := 1, reason := "missing user_story" }] := by
  constructor <;> decide

/-- Claim C4 (amended): the batch step extracts the summary from key
user_story, the description from key deliverables and the issue type from
key issue_type defaulting to "Story" when absent; an entry whose summary is
empty after trimming is appended to skipped with reason
"Missing or empty 'user_story'" and an entry with nonempty summary but
empty trimmed description with reason "Missing or empty 'deliverables'", in
both cases without any client call (the loop body equals the spec-side step
specProcessEntry, whose skip branches do not consult the capability); only
otherwise is createIssue invoked.  The concrete instances show a skip of
each kind ignoring a client that would fail, and a created entry whose
client receives the trimmed fields with the defaulted issue type. -/
theorem claim_C4 (client : Nat → String → String → String → CallOutcome)
    (i : Nat) (entry : Entry) :
    processEntry client i entry = specProcessEntry (client i) i entry ∧
    processEntry (fun _ _ _ _ => CallOutcome.unexpected "boom") 7
        { user_story := some "  ", deliverables := some "D", issue_type := none } =
      { created_issues := [], failed_issues := [],
        skipped_issues := [{ entry := 7, reason := "Missing or empty 'user_story'" }] } ∧
    processEntry (fun _ _ _ _ => CallOutcome.unexpected "boom") 8
        { user_story := some "S", deliverables := none, issue_type := some "Bug" } =
      { created_issues := [], failed_issues := [],
        skipped_issues := [{ entry := 8, reason := "Missing or empty 'deliverables'" }] } ∧
    processEntry (fun _ s d t => CallOutcome.ok (String.append s (String.append d t))) 9
        { user_story := some " S ", deliverables := some "D", issue_type := none } =
      { created_issues := [{ entry := 9, issue_key := "SDStory", summary := "S" }],
        failed_issues := [], skipped_issues := [] } := by
  refine ⟨?_, by decide, by decide, by decide⟩
  rfl
